import Mathlib

/-!
Shallow embedding of the rest-in-pytest core (src/rest_in_pytest/) and proofs
about the claims of its specification.

Python runtime values that can travel through a `RequestConfig`, a builder
setter or a JSON body are modelled by the inductive type `Val`; mutating
methods that may raise become functions returning the mutated state together
with an `Option Err` (or an `Except Err`).  The transport (`requests`) is an
external collaborator: a dispatch is modelled by the request that is delegated
to it, and a `Response` carries the observable pieces the expectation layer
reads (status code and the parsed JSON body).
-/

/-- Python values as they occur in this library: JSON-like data plus the
extra runtime types the configuration-store validation distinguishes
(`tuple`, `bytes`, a `float`, and `other` for any object of a type outside
those, e.g. a set or a file handle).  A Python float is opaque here — the
code under proof only ever asks `isinstance(v, float)`, never computes with
one — so it is carried by an identifying payload.  Structural equality on
`Val` models Python `==` on JSON data (the Python quirk `True == 1` is not
exercised by any claim). -/
inductive Val where
  | str (s : String)
  | int (n : Int)
  | float (ident : Int)
  | bool (b : Bool)
  | dict (kvs : List (String × Val))
  | list (xs : List Val)
  | tuple (xs : List Val)
  | bytes (bs : List Nat)
  | none
  | other (oid : Nat)

mutual

/-- Structural equality on `Val`, the model of Python `==` on the values this
library handles. -/
def Val.beq : Val → Val → Bool
  | .str a, .str b => a == b
  | .int a, .int b => a == b
  | .float a, .float b => a == b
  | .bool a, .bool b => a == b
  | .dict a, .dict b => Val.beqDict a b
  | .list a, .list b => Val.beqList a b
  | .tuple a, .tuple b => Val.beqList a b
  | .bytes a, .bytes b => a == b
  | .none, .none => true
  | .other a, .other b => a == b
  | _, _ => false

/-- Element-wise equality of value lists. -/
def Val.beqList : List Val → List Val → Bool
  | [], [] => true
  | a :: as, b :: bs => Val.beq a b && Val.beqList as bs
  | _, _ => false

/-- Entry-wise equality of string-keyed dictionaries (Python dicts compare
equal regardless of insertion order, but order-sensitive entry lists are all
the claims need: no claim compares dicts built in different orders). -/
def Val.beqDict : List (String × Val) → List (String × Val) → Bool
  | [], [] => true
  | (k₁, v₁) :: as, (k₂, v₂) :: bs => k₁ == k₂ && Val.beq v₁ v₂ && Val.beqDict as bs
  | _, _ => false

end

/-- The runtime errors the embedded code can raise.  `valueError` is Python's
ValueError (what `RequestConfig.update` and `_handle_data` raise),
`attributeError` is access to a never-assigned attribute, `typeError` is
Python's TypeError (e.g. hashing an unhashable value), `assertionError` is an
assertpy assertion failure, `requestError` wraps a transport failure.
`usageError` is the error kind the specification calls UsageError; the code
defines no class of that name (src/rest_in_pytest/error.py has only `Base`
and `Error`), and the constructor exists so that claims mentioning UsageError
can be stated and compared against what the code actually raises. -/
inductive Err where
  | valueError (msg : String)
  | attributeError
  | typeError
  | assertionError
  | requestError
  | usageError
  deriving DecidableEq

/-- Python dict assignment `d[k] = v`: replace the value at the binding of
`k` when the key is present, otherwise append the new binding at the end
(Python dicts keep insertion order and hold each key at most once). -/
def dictSet : List (String × Val) → String → Val → List (String × Val)
  | [], k, v => [(k, v)]
  | (k', v') :: rest, k, v =>
    if k' = k then (k, v) :: rest else (k', v') :: dictSet rest k v

/-- The value of the LAST binding of a key in a keyword-entry list, i.e. the
value that survives when the entries are merged into a dict left to right
(Python `**kwargs` cannot even hold a key twice). -/
def lastLookup : List (String × Val) → String → Option Val
  | [], _ => Option.none
  | (k', v) :: rest, k =>
    match lastLookup rest k with
    | Option.some v' => Option.some v'
    | Option.none => if k' = k then Option.some v else Option.none

/-- Embeds `RequestConfig` (src/rest_in_pytest/request_config.py): a wrapper
around the mutable dict `self.parameters`. -/
structure RequestConfig where
  parameters : List (String × Val)

namespace RequestConfig

/-- RequestConfig() — `self.parameters = {}`. -/
def init : RequestConfig := ⟨[]⟩

/-- Embeds `__getitem__`: `self.parameters[key]` (None when the key is
absent; the lookup failure itself is not exercised by any claim). -/
def getItem (c : RequestConfig) (k : String) : Option Val :=
  c.parameters.lookup k

/-- Embeds `__setitem__`: `self.parameters[key] = value` (no validation). -/
def setItem (c : RequestConfig) (k : String) (v : Val) : RequestConfig :=
  ⟨dictSet c.parameters k v⟩

/-- The value-type check of `RequestConfig.update` (request_config.py line
50): `v is not None and not isinstance(v, (str, int, float, dict, list))`
rejects the value.  A Python `bool` passes because `bool` is a subclass of
`int`; a `tuple` or `bytes` value fails the isinstance test. -/
def allowedValue : Val → Bool
  | .str _ => true
  | .int _ => true
  | .float _ => true
  | .bool _ => true
  | .dict _ => true
  | .list _ => true
  | .none => true
  | .tuple _ => false
  | .bytes _ => false
  | .other _ => false

/-- The ValueError message of `update` for an offending key `k` (the message
names the key). -/
def updateErrMsg (k : String) : String :=
  "Key " ++ k ++ " must be a string and value must be a string, number or dict"

/-- Embeds `RequestConfig.update(**kwargs)` (request_config.py lines 32–55):
iterate over the keyword entries in order; for each, if the value is not None
and its type is outside (str, int, float, dict, list), raise ValueError
naming the key; otherwise write `self.parameters[k] = v`.  The Python method
mutates `self` and may raise, so the embedding returns the store as left by
the loop together with the raised error, if any: entries before an offending
one are already written when the error escapes.  (The `isinstance(k, str)`
guard on keys is unreachable — `**kwargs` keys are always strings — and keys
are `String` here.) -/
def update (c : RequestConfig) :
    List (String × Val) → RequestConfig × Option Err
  | [] => (c, Option.none)
  | (k, v) :: rest =>
    if allowedValue v then update (c.setItem k v) rest
    else (c, Option.some (.valueError (updateErrMsg k)))

/-- Embeds `RequestConfig.clear`: `self.parameters.clear()`. -/
def clear (_ : RequestConfig) : RequestConfig := ⟨[]⟩

/-- Embeds `RequestConfig.copy` (request_config.py lines 60–63): build a
fresh `RequestConfig` and `dict.update` its empty parameters from `self`,
yielding a store whose entries equal the source's. -/
def copy (c : RequestConfig) : RequestConfig := ⟨c.parameters⟩

end RequestConfig

/-- Embeds `RequestSpecs` (src/rest_in_pytest/request_specs.py): a plain
holder of optional request fields, every field `None` until its setter is
called.  Fields other than `base_url` hold arbitrary runtime values. -/
structure RequestSpecs where
  base_url : Option String
  query_params : Option Val
  data : Option Val
  headers : Option Val
  cookies : Option Val
  files : Option Val
  auth : Option Val
  stream : Option Val
  proxies : Option Val
  verify : Option Val
  cert : Option Val
  json_data : Option Val

/-- RequestSpecs() — every field starts as `None`. -/
def RequestSpecs.init : RequestSpecs :=
  ⟨Option.none, Option.none, Option.none, Option.none, Option.none, Option.none,
   Option.none, Option.none, Option.none, Option.none, Option.none, Option.none⟩

/-- The HTTP verbs of `RequestService` (src/rest_in_pytest/request.py). -/
inductive Method where
  | GET | POST | PUT | DELETE | PATCH | HEAD | OPTIONS | CONNECT | TRACE
  deriving DecidableEq

/-- The observable pieces of a `requests.Response` that the claims read: the
status code and the parsed JSON body (`response.json()`; lazy-parse failure
is no claim's concern, so the parsed body is carried directly). -/
structure Response where
  status_code : Int
  json : Val

/-- Embeds the `ok` property of `requests.Response` (the external transport
collaborator), which `Expect.status_ok` reads: `ok` is `True` exactly when
`raise_for_status()` would not raise, i.e. when the status code is NOT in
[400, 599].  Informational (1xx) and redirect (3xx) codes therefore count as
`ok`. -/
def Response.ok (r : Response) : Bool :=
  decide (¬ (400 ≤ r.status_code ∧ r.status_code < 600))

/-- What a verb dispatch delegates to the transport collaborator: the HTTP
method, the endpoint (URL resolution by `urljoin` is the transport layer's
business and no claim concerns it), and the merged option entries
(`self.__request_config.parameters`). -/
structure SentRequest where
  method : Method
  endpoint : String
  options : List (String × Val)

/-- The transport collaborator: answers any delegated request with a
response (transport failures are no claim's concern). -/
def Transport : Type := SentRequest → Response

/-- The mutable state of a `RequestBuilder` (src/rest_in_pytest/builder.py
lines 222–225): the shared configuration store and the captured response.
`self.__response` is never assigned in `__init__`; `Option.none` models the
attribute not existing yet, so reading it then raises AttributeError. -/
structure DispatchState where
  config : RequestConfig
  response : Option Response

namespace RequestBuilder

/-- Embeds the common body of every verb method of `RequestBuilder`
(builder.py lines 227–382), e.g. `get`: run
`self.__request_config.update(**kwargs)` — if it raises, the exception
escapes and the captured response is untouched — then delegate the endpoint
together with the merged `self.__request_config.parameters` to the transport
and store the response.  The returned `SentRequest` is the delegation
itself; no conflict check between the `data` and `json` entries happens
anywhere on this path (`RequestService._handle_data` has no caller). -/
def dispatch (transport : Transport) (m : Method) (st : DispatchState)
    (endpoint : String) (kwargs : List (String × Val)) :
    DispatchState × Except Err SentRequest :=
  match st.config.update kwargs with
  | (cfg', Option.some e) => ({ st with config := cfg' }, .error e)
  | (cfg', Option.none) =>
    let sent : SentRequest := ⟨m, endpoint, cfg'.parameters⟩
    ({ config := cfg', response := Option.some (transport sent) }, .ok sent)

/-- Embeds `RequestBuilder.get`. -/
def get (transport : Transport) : DispatchState → String →
    List (String × Val) → DispatchState × Except Err SentRequest :=
  dispatch transport .GET

/-- Embeds `RequestBuilder.post`. -/
def post (transport : Transport) : DispatchState → String →
    List (String × Val) → DispatchState × Except Err SentRequest :=
  dispatch transport .POST

/-- Embeds `RequestBuilder.clear`: delegates to the store's `clear`. -/
def clearConfig (st : DispatchState) : DispatchState :=
  { st with config := st.config.clear }

end RequestBuilder

/-- Embeds `ExpectBuilder` (builder.py lines 421–424): wraps the captured
response. -/
structure ExpectBuilder where
  response : Response

/-- Embeds `RequestBuilder.then` (builder.py lines 404–418, named
`thenExpect` because `then` is a Lean keyword): `return
ExpectBuilder(self.__response)`.  When no verb method has run,
`self.__response` was never assigned, so the attribute access raises
AttributeError; no guard of any kind precedes it. -/
def RequestBuilder.thenExpect (st : DispatchState) : Except Err ExpectBuilder :=
  match st.response with
  | Option.none => .error .attributeError
  | Option.some r => .ok ⟨r⟩

/-- Embeds `ConfigBuilder` (builder.py lines 40–219): the "given" phase,
holding a fresh `RequestSpecs` and a fresh `RequestConfig`. -/
structure ConfigBuilder where
  request_specs : RequestSpecs
  request_config : RequestConfig

namespace ConfigBuilder

/-- Embeds `Rip.given` / `ConfigBuilder.__init__`: fresh specs and store,
optionally seeded with a base URL. -/
def given (base_url : Option String) : ConfigBuilder :=
  ⟨{ RequestSpecs.init with base_url := base_url }, RequestConfig.init⟩

/-- Embeds the setter `ConfigBuilder.params` (builder.py lines 73–83): when
the argument is present, overwrite the spec field and mirror the value into
the store under the transmission key `params`; when absent, change
nothing. -/
def params (b : ConfigBuilder) (query_params : Option Val) : ConfigBuilder :=
  match query_params with
  | Option.none => b
  | Option.some v =>
    ⟨{ b.request_specs with query_params := Option.some v },
     b.request_config.setItem "params" v⟩

/-- Embeds the setter `ConfigBuilder.data` (builder.py lines 85–95):
mirrored into the store under the key `data`. -/
def data (b : ConfigBuilder) (d : Option Val) : ConfigBuilder :=
  match d with
  | Option.none => b
  | Option.some v =>
    ⟨{ b.request_specs with data := Option.some v },
     b.request_config.setItem "data" v⟩

/-- Embeds the setter `ConfigBuilder.json_data` (builder.py lines 97–107):
mirrored into the store under the key `json`. -/
def json_data (b : ConfigBuilder) (j : Option Val) : ConfigBuilder :=
  match j with
  | Option.none => b
  | Option.some v =>
    ⟨{ b.request_specs with json_data := Option.some v },
     b.request_config.setItem "json" v⟩

/-- Embeds the setter `ConfigBuilder.headers` (builder.py lines 109–119):
mirrored into the store under the key `headers`.  The remaining setters
(`cookies`, `auth`, `files`, `proxies`, `stream`, `ssl_verify`, `cert`) have
the identical shape and are not needed by any claim. -/
def headers (b : ConfigBuilder) (h : Option Val) : ConfigBuilder :=
  match h with
  | Option.none => b
  | Option.some v =>
    ⟨{ b.request_specs with headers := Option.some v },
     b.request_config.setItem "headers" v⟩

/-- Embeds `ConfigBuilder.when` (builder.py lines 199–219): construct the
dispatch phase sharing — not copying — the already-populated store; the
captured-response attribute does not exist yet. -/
def when (b : ConfigBuilder) : DispatchState :=
  { config := b.request_config, response := Option.none }

end ConfigBuilder

mutual

/-- Models `json.dumps` as far as `RequestService._handle_data` needs it:
serialize a value, raising TypeError on values JSON cannot encode (string
escaping is not modelled; no claim serializes a string containing
a quote). -/
def jsonDumps : Val → Except Err String
  | .str s => .ok ("\"" ++ s ++ "\"")
  | .int n => .ok (toString n)
  | .float i => .ok (toString i)
  | .bool b => .ok (if b then "true" else "false")
  | .dict kvs => (jsonDumpsEntries kvs).map (fun s => "\x7b" ++ s ++ "\x7d")
  | .list xs => (jsonDumpsItems xs).map (fun s => "[" ++ s ++ "]")
  | .tuple xs => (jsonDumpsItems xs).map (fun s => "[" ++ s ++ "]")
  | .bytes _ => .error .typeError
  | .none => .ok "null"
  | .other _ => .error .typeError

/-- Comma-separated serialization of the items of a list value. -/
def jsonDumpsItems : List Val → Except Err String
  | [] => .ok ""
  | [x] => jsonDumps x
  | x :: y :: rest => do
    let hd ← jsonDumps x
    let tl ← jsonDumpsItems (y :: rest)
    .ok (hd ++ ", " ++ tl)

/-- Comma-separated serialization of the entries of a dict value. -/
def jsonDumpsEntries : List (String × Val) → Except Err String
  | [] => .ok ""
  | [(k, v)] => (jsonDumps v).map (fun s => "\"" ++ k ++ "\": " ++ s)
  | (k, v) :: e :: rest => do
    let hd ← (jsonDumps v).map (fun s => "\"" ++ k ++ "\": " ++ s)
    let tl ← jsonDumpsEntries (e :: rest)
    .ok (hd ++ ", " ++ tl)

end

namespace RequestService

/-- Embeds `RequestService._handle_data` (request.py lines 80–90).  No code
in the repository calls this method: neither `_request` nor any verb method
mentions it, so its check is dead code.  Were it called, a kwargs mapping
holding both a `data` and a `json` key would make it raise ValueError (with
a message reading "At least one of data or json arguments must be
provided", contradicting the condition it actually tests); otherwise a dict
`data` value is serialized to a JSON string in place. -/
def handle_data (kwargs : List (String × Val)) : Except Err (List (String × Val)) :=
  if kwargs.any (fun p => p.1 = "data") && kwargs.any (fun p => p.1 = "json") then
    .error (.valueError "At least one of data or json arguments must be provided")
  else
    match kwargs.lookup "data" with
    | Option.some (.dict d) =>
      (jsonDumps (.dict d)).map (fun s => dictSet kwargs "data" (.str s))
    | _ => .ok kwargs

/-- Embeds `RequestService._status_code_is_success` (request.py lines
92–93): the repository's own success predicate, `200 <= status <= 299`. -/
def status_code_is_success (r : Response) : Bool :=
  decide (200 ≤ r.status_code ∧ r.status_code ≤ 299)

end RequestService

/-- Models Python membership `item in container` as used by assertpy's
`contains` on a parsed JSON body.  On a dict, `in` hashes the item and
looks among the (string) keys: an unhashable item — a dict or a list —
raises TypeError, a string item tests key membership, any other hashable
item matches no string key.  On a list (or tuple), `in` compares the item
with each element by `==`.  On a string, `in` is substring search and a
non-string item raises TypeError.  Any other container raises TypeError
(not iterable). -/
def pyIn (container item : Val) : Except Err Bool :=
  match container with
  | .dict kvs =>
    match item with
    | .dict _ => .error .typeError
    | .list _ => .error .typeError
    | .str s => .ok (kvs.any (fun p => p.1 == s))
    | _ => .ok false
  | .list xs => .ok (xs.any (fun x => Val.beq x item))
  | .tuple xs => .ok (xs.any (fun x => Val.beq x item))
  | .str s =>
    match item with
    | .str sub => .ok (decide (List.IsInfix sub.toList s.toList))
    | _ => .error .typeError
  | _ => .error .typeError

namespace Expect

/-- Embeds `Expect.status_ok` (src/rest_in_pytest/expect.py lines 19–21):
`assert_that(self._response.ok).is_true()` — the assertion reads the
transport's `ok` property, not the repository's own
`_status_code_is_success`. -/
def status_ok (r : Response) : Except Err Unit :=
  if r.ok then .ok () else .error .assertionError

/-- Embeds `Expect.json_contains` (expect.py lines 53–54):
`assert_that(self._response.json()).contains(json)` — assertpy's `contains`
with a single argument evaluates Python `json not in self.val` and fails the
assertion when the membership test is false; an error raised by the
membership test itself (TypeError on a dict body) escapes. -/
def json_contains (r : Response) (j : Val) : Except Err Unit :=
  match pyIn r.json j with
  | .error e => .error e
  | .ok true => .ok ()
  | .ok false => .error .assertionError

/-- The JSONPath matcher collaborator (`jsonpath.findall`): a path
expression and a parsed body yield the list of matched values. -/
def JsonPathFind : Type := String → Val → List Val

/-- Embeds `Expect._json_path_matches` (expect.py lines 66–70): an empty
(falsy) expression short-circuits to no matches; otherwise the collaborator
is consulted and each matched value wrapped (the wrapper `JsonPathMatch`
holds only the value, so the list of values suffices here). -/
def json_path_matches (findall : JsonPathFind) (expr : String) (r : Response) :
    List Val :=
  if expr = "" then [] else findall expr r.json

/-- The loop body of `Expect.json_path`: assert each match's value equal to
the expected value, stopping at the first mismatch. -/
def json_path_loop (expected : Val) : List Val → Except Err Unit
  | [] => .ok ()
  | m :: rest =>
    if Val.beq m expected then json_path_loop expected rest
    else .error .assertionError

/-- Embeds `Expect.json_path` (expect.py lines 56–60): compute the matches,
then `assert_that(match.value).is_equal_to(expected_value)` for each. -/
def json_path (findall : JsonPathFind) (expr : String) (expected : Val)
    (r : Response) : Except Err Unit :=
  json_path_loop expected (json_path_matches findall expr r)

end Expect

/-!
Aliasing model.  Python `RequestConfig` objects are mutable and shared by
reference; independence claims (about `copy`) speak about object identity,
so stores are placed on an explicit heap: a store reference is an index, a
`copy` allocates, and a mutating method edits in place at its reference.
-/

/-- A heap of configuration stores. -/
abbrev Heap := List RequestConfig

/-- Dereference a store (Nothing for a dangling reference). -/
def heapGet : Heap → Nat → Option RequestConfig
  | [], _ => Option.none
  | c :: _, 0 => Option.some c
  | _ :: rest, n + 1 => heapGet rest n

/-- Edit the store at a reference in place. -/
def heapModify : Heap → Nat → (RequestConfig → RequestConfig) → Heap
  | [], _, _ => []
  | c :: rest, 0, f => f c :: rest
  | c :: rest, n + 1, f => c :: heapModify rest n f

/-- Embeds `RequestConfig.copy` at the heap level: allocate a fresh store
whose entries are duplicated from the source, returning its reference. -/
def heapCopy (h : Heap) (r : Nat) : Heap × Nat :=
  (h ++ [RequestConfig.copy ((heapGet h r).getD RequestConfig.init)], h.length)

/-- The mutating operations a `RequestConfig` exposes: single-entry `set`
(`__setitem__`), validated bulk `update`, and `clear`. -/
inductive StoreMutation where
  | setEntry (k : String) (v : Val)
  | updateEntries (entries : List (String × Val))
  | clearAll

/-- Run a mutating store method (for `update`, the store as the loop leaves
it, whether or not a ValueError escapes). -/
def applyMutation : StoreMutation → RequestConfig → RequestConfig
  | .setEntry k v, c => c.setItem k v
  | .updateEntries es, c => (c.update es).1
  | .clearAll, c => c.clear

/-- Run a mutating store method in place at a reference. -/
def heapApply (h : Heap) (r : Nat) (m : StoreMutation) : Heap :=
  heapModify h r (applyMutation m)

/-- A `RequestBuilder` at the heap level: it holds its shared store by
reference, plus the captured response. -/
structure RequestBuilderH where
  configRef : Nat
  response : Option Response

/-- Embeds `RequestBuilder.copy` (builder.py lines 399–402): the body runs
`self.__request_config.copy()` — allocating a duplicate store — but binds
the result nowhere and returns `self`, so the duplicate is orphaned and the
builder keeps the very same store reference. -/
def RequestBuilderH.copy (h : Heap) (b : RequestBuilderH) :
    Heap × RequestBuilderH :=
  ((heapCopy h b.configRef).1, b)

/-- A verb dispatch at the heap level: read the shared store through the
builder's reference, run the pure dispatch (merge kwargs, delegate, capture)
and write the merged store back in place. -/
def RequestBuilderH.dispatchH (transport : Transport) (m : Method) (h : Heap)
    (b : RequestBuilderH) (endpoint : String) (kwargs : List (String × Val)) :
    Heap × Option Response × Except Err SentRequest :=
  let st : DispatchState :=
    ⟨(heapGet h b.configRef).getD RequestConfig.init, b.response⟩
  let out := RequestBuilder.dispatch transport m st endpoint kwargs
  (heapModify h b.configRef (fun _ => out.1.config), out.1.response, out.2)

/-!
General lemmas about the embedded operations, shared by the claim proofs.
-/

mutual

/-- Structural equality on values is reflexive (sanity of the Python `==`
model). -/
theorem Val.beq_refl : (v : Val) → Val.beq v v = true
  | .str _ => by simp [Val.beq]
  | .int _ => by simp [Val.beq]
  | .float _ => by simp [Val.beq]
  | .bool _ => by simp [Val.beq]
  | .dict kvs => by simpa [Val.beq] using Val.beqDict_refl kvs
  | .list xs => by simpa [Val.beq] using Val.beqList_refl xs
  | .tuple xs => by simpa [Val.beq] using Val.beqList_refl xs
  | .bytes _ => by simp [Val.beq]
  | .none => by simp [Val.beq]
  | .other _ => by simp [Val.beq]

/-- Reflexivity of element-wise list equality. -/
theorem Val.beqList_refl : (xs : List Val) → Val.beqList xs xs = true
  | [] => by simp [Val.beqList]
  | x :: xs => by simp [Val.beqList, Val.beq_refl x, Val.beqList_refl xs]

/-- Reflexivity of entry-wise dict equality. -/
theorem Val.beqDict_refl : (kvs : List (String × Val)) → Val.beqDict kvs kvs = true
  | [] => by simp [Val.beqDict]
  | (_, v) :: kvs => by simp [Val.beqDict, Val.beq_refl v, Val.beqDict_refl kvs]

end

/-- Looking up the key just assigned yields the assigned value. -/
theorem lookup_dictSet_self (l : List (String × Val)) (k : String) (v : Val) :
    (dictSet l k v).lookup k = Option.some v := by
  induction l with
  | nil => simp [dictSet, List.lookup_cons]
  | cons p rest ih =>
    obtain ⟨k', v'⟩ := p
    by_cases hk : k' = k
    · simp [dictSet, hk, List.lookup_cons]
    · simp [dictSet, hk, List.lookup_cons, beq_false_of_ne (Ne.symm hk), ih]

/-- Assigning one key leaves the lookup of every other key unchanged. -/
theorem lookup_dictSet_ne (l : List (String × Val)) {k k₀ : String} (v : Val)
    (h : k ≠ k₀) : (dictSet l k₀ v).lookup k = l.lookup k := by
  induction l with
  | nil => simp [dictSet, List.lookup_cons, beq_false_of_ne h]
  | cons p rest ih =>
    obtain ⟨k', v'⟩ := p
    by_cases hk : k' = k₀
    · subst hk
      simp [dictSet, List.lookup_cons, beq_false_of_ne h]
    · by_cases hkk : k = k'
      · subst hkk
        simp [dictSet, hk, List.lookup_cons]
      · simp [dictSet, hk, List.lookup_cons, beq_false_of_ne hkk, ih]

/-- A key without a binding in the entry list keeps its store value across
`update`, whether or not the update raises. -/
theorem update_lookup_of_unbound (rest : List (String × Val)) :
    ∀ (c : RequestConfig) (k : String), lastLookup rest k = Option.none →
      ((c.update rest).1).parameters.lookup k = c.parameters.lookup k := by
  induction rest with
  | nil => intro c k _; rfl
  | cons p rest ih =>
    intro c k hnone
    obtain ⟨k₁, v₁⟩ := p
    have htail : lastLookup rest k = Option.none := by
      unfold lastLookup at hnone
      cases h : lastLookup rest k with
      | none => rfl
      | some v' => rw [h] at hnone; exact absurd hnone (by simp)
    have hk₁ : k₁ ≠ k := by
      unfold lastLookup at hnone
      rw [htail] at hnone
      intro he
      rw [if_pos he] at hnone
      exact absurd hnone (by simp)
    by_cases hall : RequestConfig.allowedValue v₁ = true
    · have : c.update ((k₁, v₁) :: rest) = (c.setItem k₁ v₁).update rest := by
        simp [RequestConfig.update, hall]
      rw [this, ih _ k htail]
      exact lookup_dictSet_ne _ _ (Ne.symm hk₁)
    · simp [RequestConfig.update, hall]

/-- When `update` succeeds, the store afterwards holds, at each key bound by
the entry list, the value of that key's last binding (last-write-wins at the
entry level). -/
theorem update_lookup_last (kwargs : List (String × Val)) :
    ∀ (c : RequestConfig) (k : String) (v : Val),
      (c.update kwargs).2 = Option.none →
      lastLookup kwargs k = Option.some v →
      ((c.update kwargs).1).parameters.lookup k = Option.some v := by
  induction kwargs with
  | nil => intro c k v _ hlast; exact absurd hlast (by simp [lastLookup])
  | cons p rest ih =>
    intro c k v hok hlast
    obtain ⟨k₁, v₁⟩ := p
    have hall : RequestConfig.allowedValue v₁ = true := by
      by_contra hno
      simp [RequestConfig.update, eq_false_of_ne_true hno] at hok
    have hstep : c.update ((k₁, v₁) :: rest) = (c.setItem k₁ v₁).update rest := by
      simp [RequestConfig.update, hall]
    rw [hstep] at hok ⊢
    cases htail : lastLookup rest k with
    | some v' =>
      have hv : v' = v := by
        unfold lastLookup at hlast
        rw [htail] at hlast
        exact (Option.some.inj hlast)
      exact hv ▸ ih _ k v' hok htail
    | none =>
      have hk₁ : k₁ = k ∧ v₁ = v := by
        unfold lastLookup at hlast
        rw [htail] at hlast
        by_cases he : k₁ = k
        · rw [if_pos he] at hlast
          exact ⟨he, Option.some.inj hlast⟩
        · rw [if_neg he] at hlast
          exact absurd hlast (by simp)
      obtain ⟨he, hv⟩ := hk₁
      subst he
      subst hv
      rw [update_lookup_of_unbound rest _ _ htail]
      exact lookup_dictSet_self _ _ _

/-- Editing a store in place keeps the heap's length. -/
theorem heapModify_length (h : Heap) (r : Nat) (f : RequestConfig → RequestConfig) :
    (heapModify h r f).length = h.length := by
  induction h generalizing r with
  | nil => rfl
  | cons c rest ih =>
    cases r with
    | zero => rfl
    | succ n => simp [heapModify, ih]

/-- Editing one store in place leaves every other reference's store as it
was. -/
theorem heapGet_heapModify_ne (h : Heap) {r r' : Nat}
    (f : RequestConfig → RequestConfig) (hne : r ≠ r') :
    heapGet (heapModify h r f) r' = heapGet h r' := by
  induction h generalizing r r' with
  | nil => rfl
  | cons c rest ih =>
    cases r with
    | zero =>
      cases r' with
      | zero => exact absurd rfl hne
      | succ n' => rfl
    | succ n =>
      cases r' with
      | zero => rfl
      | succ n' => exact ih (fun he => hne (congrArg Nat.succ he))

/-- Allocation at the end of the heap leaves existing references' stores as
they were. -/
theorem heapGet_append_lt (h : Heap) (c : RequestConfig) {r : Nat}
    (hr : r < h.length) : heapGet (h ++ [c]) r = heapGet h r := by
  induction h generalizing r with
  | nil => exact absurd hr (by simp)
  | cons d rest ih =>
    cases r with
    | zero => rfl
    | succ n => exact ih (Nat.lt_of_succ_lt_succ hr)

/-- The freshly allocated store sits at the old length. -/
theorem heapGet_append_length (h : Heap) (c : RequestConfig) :
    heapGet (h ++ [c]) h.length = Option.some c := by
  induction h with
  | nil => rfl
  | cons d rest ih => simpa [heapGet] using ih

/-- Editing an existing store commutes with allocating at the end. -/
theorem heapModify_append_lt (h : Heap) (c : RequestConfig) {r : Nat}
    (f : RequestConfig → RequestConfig) (hr : r < h.length) :
    heapModify (h ++ [c]) r f = heapModify h r f ++ [c] := by
  induction h generalizing r with
  | nil => exact absurd hr (by simp)
  | cons d rest ih =>
    cases r with
    | zero => rfl
    | succ n => simpa [heapModify] using ih (Nat.lt_of_succ_lt_succ hr)

/-- A valid reference dereferences to a store. -/
theorem heapGet_isSome_of_lt (h : Heap) {r : Nat} (hr : r < h.length) :
    (heapGet h r).isSome = true := by
  induction h generalizing r with
  | nil => exact absurd hr (by simp)
  | cons d rest ih =>
    cases r with
    | zero => rfl
    | succ n => exact ih (Nat.lt_of_succ_lt_succ hr)

/-- The assertion loop of `json_path` returns normally exactly when every
match equals the expected value; in particular it returns normally on an
empty match list. -/
theorem json_path_loop_ok_iff (expected : Val) (l : List Val) :
    Expect.json_path_loop expected l = .ok () ↔
      ∀ m ∈ l, Val.beq m expected = true := by
  induction l with
  | nil => simp [Expect.json_path_loop]
  | cons x xs ih =>
    by_cases hx : Val.beq x expected = true
    · simp [Expect.json_path_loop, hx, ih]
    · simp [Expect.json_path_loop, hx]

/-!
The claims.
-/

/-- A transport stub answering every delegated request with status 200 and
an empty body. -/
def stubTransport : Transport := fun _ => ⟨200, Val.none⟩

/-- A chain on which both the data setter and the jsonBody setter were
called, so the shared store holds both a `data` and a `json` entry. -/
def bothBodiesBuilder : ConfigBuilder :=
  ((ConfigBuilder.given Option.none).data
      (Option.some (.str "raw"))).json_data
    (Option.some (.dict [("title", .str "foo")]))

/-- C1, the code's actual behaviour at the claim's failing input.  The claim
says a dispatch whose configuration holds both `data` and `json` raises
UsageError before delegating; in the code no verb dispatch performs any such
check — `RequestService._handle_data`, which tests exactly this conflict, is
never called — so the POST is delegated to the transport with BOTH entries
among its options and no error of any kind is raised.  The second conjunct
evaluates the dead `_handle_data` at those options: were it called it would
raise ValueError (not a UsageError; no such class exists). -/
theorem C1_both_bodies_dispatched_without_error :
    (RequestBuilder.post stubTransport bothBodiesBuilder.when "/posts" []).2
        = .ok ⟨.POST, "/posts",
            [("data", Val.str "raw"), ("json", Val.dict [("title", Val.str "foo")])]⟩
      ∧ RequestService.handle_data
          [("data", Val.str "raw"), ("json", Val.dict [("title", Val.str "foo")])]
          = .error (.valueError
              "At least one of data or json arguments must be provided") :=
  ⟨rfl, rfl⟩

/-- C2, counterexample to the claim as stated: on a freshly constructed
dispatcher (no verb called), `then()` does fail, but with AttributeError —
the never-assigned `self.__response` attribute — and not with UsageError,
which the code cannot raise because no such error class exists. -/
theorem C2_counterexample_then_not_usage_error :
    RequestBuilder.thenExpect (ConfigBuilder.given Option.none).when
        = .error .attributeError
      ∧ RequestBuilder.thenExpect (ConfigBuilder.given Option.none).when
        ≠ .error .usageError := by
  refine ⟨rfl, ?_⟩
  intro h
  injection h with h'
  exact Err.noConfusion h'

/-- C2 (amended): for every dispatcher on which no HTTP verb operation has
yet been invoked (so no captured response exists), calling `then()` raises
AttributeError — the failure is the attribute access itself, not a guarded
UsageError. -/
theorem C2_then_before_verb_attribute_error (st : DispatchState)
    (h : st.response = Option.none) :
    RequestBuilder.thenExpect st = .error .attributeError := by
  unfold RequestBuilder.thenExpect
  rw [h]

/-- C2, the amended theorem applied to a concrete fresh dispatcher. -/
theorem C2_witness :
    (ConfigBuilder.given Option.none).when.response = Option.none
      ∧ RequestBuilder.thenExpect (ConfigBuilder.given Option.none).when
          = .error .attributeError :=
  ⟨rfl, C2_then_before_verb_attribute_error _ rfl⟩

/-- C3, the code's actual behaviour at the claim's failing input.  The claim
(and the docstring of `status_ok` itself) says the expectation succeeds iff
the status code lies in [200, 299]; the code instead asserts
`self._response.ok`, the `requests` property that is true for every status
code below 400 (and at or above 600).  At status 302 the expectation
succeeds although the repository's own success predicate
`_status_code_is_success` — the [200, 299] test — is false there. -/
theorem C3_status_ok_passes_on_302 :
    Expect.status_ok ⟨302, Val.none⟩ = .ok ()
      ∧ RequestService.status_code_is_success ⟨302, Val.none⟩ = false :=
  ⟨rfl, rfl⟩

/-- C6, the code's actual behaviour at the claim's failing input.  The claim
allows every sequence value; the code's isinstance test admits only
`str, int, float, dict, list` (plus `bool` as an `int` subclass and `None`),
so a tuple — a Python sequence, declared acceptable by `update`'s own
signature and docstring, and the documented shape of the `auth` option —
is rejected with ValueError naming the key, while the same elements as a
list are stored.  The store is left unchanged by the rejected call. -/
theorem C6_update_rejects_tuple_value :
    RequestConfig.init.update
        [("auth", .tuple [.str "username", .str "password"])]
      = (RequestConfig.init,
         Option.some (.valueError (RequestConfig.updateErrMsg "auth")))
    ∧ RequestConfig.init.update
        [("auth", .list [.str "username", .str "password"])]
      = (⟨[("auth", .list [.str "username", .str "password"])]⟩, Option.none) :=
  ⟨rfl, rfl⟩

/-- C7, counterexample to the claim as stated: the claim says
`jsonContains({"a": 1})` passes against the body `{"a": 1, "b": 2}`; in the
code `json_contains` is assertpy's `contains`, i.e. Python membership
`subset in body`, and membership of a dict in a dict hashes the dict —
raising TypeError (unhashable type), not returning success. -/
theorem C7_counterexample_subset_not_supported :
    Expect.json_contains ⟨200, .dict [("a", .int 1), ("b", .int 2)]⟩
        (.dict [("a", .int 1)])
      = .error .typeError
    ∧ Expect.json_contains ⟨200, .dict [("a", .int 1), ("b", .int 2)]⟩
        (.dict [("a", .int 1)])
      ≠ .ok () := by
  refine ⟨rfl, ?_⟩
  intro h
  injection h

/-- C7 (amended): `jsonContains(subset)` performs a Python membership test
of the subset in the parsed body, never a recursive subset match: against a
JSON object body a mapping argument raises TypeError (mappings are
unhashable), and against a JSON array body the expectation succeeds exactly
when the argument equals one of the elements. -/
theorem C7_json_contains_is_membership :
    (∀ (sc : Int) (bkvs skvs : List (String × Val)),
        Expect.json_contains ⟨sc, .dict bkvs⟩ (.dict skvs) = .error .typeError)
    ∧ (∀ (sc : Int) (xs : List Val) (v : Val),
        Expect.json_contains ⟨sc, .list xs⟩ v
          = if xs.any (fun x => Val.beq x v) then .ok ()
            else .error .assertionError) := by
  constructor
  · intro sc bkvs skvs
    rfl
  · intro sc xs v
    cases hx : xs.any (fun x => Val.beq x v) <;>
      simp [Expect.json_contains, pyIn, hx]

/-- C4: for every JSONPath matcher, expression, expected value and response,
the jsonPath expectation returns normally exactly when every produced match
equals the expected value — so with zero matches (in particular for any
expression the matcher maps to no match, and for the empty expression) it
returns normally without raising. -/
theorem C4_json_path_ok_iff_all_matches_expected (findall : Expect.JsonPathFind)
    (expr : String) (expected : Val) (r : Response) :
    Expect.json_path findall expr expected r = .ok () ↔
      ∀ m ∈ Expect.json_path_matches findall expr r, Val.beq m expected = true :=
  json_path_loop_ok_iff expected _

/-- C5: when a verb dispatch succeeds, the options delegated to the
transport hold, at every key bound by the per-call overrides, the override's
value — the overrides are merged into the shared store after the
builder-accumulated values, so they win on key collision (last-write-wins).
Stated for every key the overrides bind, which covers in particular every
key also present in the builder-accumulated configuration. -/
theorem C5_call_site_override_wins (transport : Transport) (m : Method)
    (st : DispatchState) (endpoint : String) (kwargs : List (String × Val))
    (st' : DispatchState) (sent : SentRequest) (k : String) (v : Val)
    (hd : RequestBuilder.dispatch transport m st endpoint kwargs = (st', .ok sent))
    (hk : lastLookup kwargs k = Option.some v) :
    sent.options.lookup k = Option.some v := by
  unfold RequestBuilder.dispatch at hd
  split at hd
  · exact absurd (congrArg Prod.snd hd) (by simp)
  · next cfg' heq =>
    have hsent : sent = ⟨m, endpoint, cfg'.parameters⟩ := by
      have h2 := congrArg Prod.snd hd
      simp at h2
      exact h2.symm
    rw [hsent]
    have hc : cfg' = (st.config.update kwargs).1 := by rw [heq]
    rw [show (SentRequest.mk m endpoint cfg'.parameters).options = cfg'.parameters from rfl,
        hc]
    exact update_lookup_last kwargs st.config k v (by rw [heq]) hk

/-- A chain whose builder accumulated `params({"a": 1})`. -/
def overrideDemoBuilder : ConfigBuilder :=
  (ConfigBuilder.given Option.none).params (Option.some (.dict [("a", .int 1)]))

/-- C5 applied to the spec's own example: builder-level `params({"a": 1})`
overridden at the call site with `params={"a": 2}` sends `{"a": 2}`. -/
theorem C5_witness :
    lastLookup [("params", Val.dict [("a", Val.int 2)])] "params"
        = Option.some (Val.dict [("a", Val.int 2)])
      ∧ (SentRequest.mk .GET "/posts"
            [("params", Val.dict [("a", Val.int 2)])]).options.lookup "params"
        = Option.some (Val.dict [("a", Val.int 2)]) :=
  ⟨rfl,
   C5_call_site_override_wins stubTransport .GET overrideDemoBuilder.when "/posts"
     [("params", Val.dict [("a", Val.int 2)])]
     ⟨⟨[("params", Val.dict [("a", Val.int 2)])]⟩, Option.some ⟨200, Val.none⟩⟩
     ⟨.GET, "/posts", [("params", Val.dict [("a", Val.int 2)])]⟩
     "params" (Val.dict [("a", Val.int 2)]) rfl rfl⟩

/-- C9: `update` is not atomic on error — when a later entry carries a
disallowed value type, the loop has already written every entry before the
offending one into the store at the moment the ValueError is raised, leaving
the store partially updated rather than unchanged. -/
theorem C9_update_partial_on_error (c : RequestConfig)
    (pre post : List (String × Val)) (k : String) (v : Val)
    (hpre : ∀ p ∈ pre, RequestConfig.allowedValue p.2 = true)
    (hv : RequestConfig.allowedValue v = false) :
    c.update (pre ++ (k, v) :: post)
      = (pre.foldl (fun acc p => acc.setItem p.1 p.2) c,
         Option.some (.valueError (RequestConfig.updateErrMsg k))) := by
  induction pre generalizing c with
  | nil => simp [RequestConfig.update, hv]
  | cons p pre ih =>
    obtain ⟨k₁, v₁⟩ := p
    have h₁ : RequestConfig.allowedValue v₁ = true := hpre (k₁, v₁) (by simp)
    simp only [List.cons_append, RequestConfig.update, h₁, if_true, List.foldl_cons]
    exact ih _ (fun q hq => hpre q (by simp [hq]))

/-- C9 applied to a concrete two-entry update whose second value is a tuple:
the first entry is already stored when the ValueError escapes. -/
theorem C9_witness :
    (∀ p ∈ [("a", Val.str "x")], RequestConfig.allowedValue p.2 = true)
      ∧ RequestConfig.allowedValue (Val.tuple []) = false
      ∧ RequestConfig.init.update
          ([("a", Val.str "x")] ++ ("b", Val.tuple []) :: [])
        = ([("a", Val.str "x")].foldl
             (fun acc p => acc.setItem p.1 p.2) RequestConfig.init,
           Option.some (.valueError (RequestConfig.updateErrMsg "b"))) :=
  ⟨by intro p hp; rw [List.mem_singleton] at hp; rw [hp]; rfl,
   rfl,
   C9_update_partial_on_error RequestConfig.init [("a", Val.str "x")] [] "b"
     (Val.tuple [])
     (by intro p hp; rw [List.mem_singleton] at hp; rw [hp]; rfl) rfl⟩

/-- C8: `copy()` allocates a NEW store (a fresh reference) holding a
duplicate of all entries of the source, and afterwards running any mutating
store method — set, update or clear — on either of the two stores leaves
the entries of the other unchanged (the copy also leaves the original's
entries as they were). -/
theorem C8_copy_yields_independent_store (h : Heap) (r : Nat)
    (m : StoreMutation) (hr : r < h.length) :
    (heapCopy h r).2 ≠ r
      ∧ heapGet (heapCopy h r).1 (heapCopy h r).2 = heapGet h r
      ∧ heapGet (heapCopy h r).1 r = heapGet h r
      ∧ heapGet (heapApply (heapCopy h r).1 r m) (heapCopy h r).2
          = heapGet (heapCopy h r).1 (heapCopy h r).2
      ∧ heapGet (heapApply (heapCopy h r).1 (heapCopy h r).2 m) r
          = heapGet (heapCopy h r).1 r := by
  obtain ⟨c, hc⟩ := Option.isSome_iff_exists.mp (heapGet_isSome_of_lt h hr)
  have hcopyfst : (heapCopy h r).1 = h ++ [c] := by
    simp [heapCopy, hc, RequestConfig.copy]
  have hcopysnd : (heapCopy h r).2 = h.length := rfl
  refine ⟨?_, ?_, ?_, ?_, ?_⟩
  · rw [hcopysnd]
    exact Nat.ne_of_gt hr
  · rw [hcopyfst, hcopysnd, heapGet_append_length, hc]
  · rw [hcopyfst, heapGet_append_lt h c hr]
  · rw [hcopyfst, hcopysnd]
    unfold heapApply
    rw [heapModify_append_lt h c (applyMutation m) hr,
        show heapGet (heapModify h r (applyMutation m) ++ [c]) h.length
            = heapGet (heapModify h r (applyMutation m) ++ [c])
                (heapModify h r (applyMutation m)).length from by
          rw [heapModify_length],
        heapGet_append_length, heapGet_append_length]
  · rw [hcopyfst, hcopysnd]
    unfold heapApply
    rw [heapGet_heapModify_ne _ _ (Nat.ne_of_gt hr)]

/-- A one-store heap for the copy-independence witnesses. -/
def demoHeap : Heap := [⟨[("a", Val.int 1)]⟩]

/-- C8 applied to a concrete store and a concrete mutation of entry `a`. -/
theorem C8_witness :
    0 < demoHeap.length
      ∧ ((heapCopy demoHeap 0).2 ≠ 0
          ∧ heapGet (heapCopy demoHeap 0).1 (heapCopy demoHeap 0).2
              = heapGet demoHeap 0
          ∧ heapGet (heapCopy demoHeap 0).1 0 = heapGet demoHeap 0
          ∧ heapGet (heapApply (heapCopy demoHeap 0).1 0
                (.setEntry "a" (Val.int 2))) (heapCopy demoHeap 0).2
              = heapGet (heapCopy demoHeap 0).1 (heapCopy demoHeap 0).2
          ∧ heapGet (heapApply (heapCopy demoHeap 0).1 (heapCopy demoHeap 0).2
                (.setEntry "a" (Val.int 2))) 0
              = heapGet (heapCopy demoHeap 0).1 0) :=
  ⟨by decide,
   C8_copy_yields_independent_store demoHeap 0 (.setEntry "a" (Val.int 2))
     (by decide)⟩

/-- C10: `RequestBuilder.copy` runs the store's `copy()` but binds its
result nowhere, returning the very same dispatcher with the very same store
reference and unchanged entries — so the freshly created duplicate is
orphaned and a subsequent dispatch (any verb, endpoint and overrides)
produces exactly the same delegation and captured response as if `copy()`
had never been called. -/
theorem C10_builder_copy_has_no_effect (h : Heap) (b : RequestBuilderH)
    (hr : b.configRef < h.length) :
    (RequestBuilderH.copy h b).2 = b
      ∧ heapGet (RequestBuilderH.copy h b).1 b.configRef
          = heapGet h b.configRef
      ∧ ∀ (transport : Transport) (m : Method) (endpoint : String)
          (kwargs : List (String × Val)),
          (RequestBuilderH.dispatchH transport m (RequestBuilderH.copy h b).1
              b endpoint kwargs).2
            = (RequestBuilderH.dispatchH transport m h b endpoint kwargs).2 := by
  have hget : heapGet (RequestBuilderH.copy h b).1 b.configRef
      = heapGet h b.configRef := heapGet_append_lt h _ hr
  refine ⟨rfl, hget, ?_⟩
  intro transport m endpoint kwargs
  unfold RequestBuilderH.dispatchH
  rw [hget]

/-- A heap-level dispatcher bound to the store of `demoHeap`. -/
def demoBuilder : RequestBuilderH := ⟨0, Option.none⟩

/-- C10 applied to a concrete dispatcher, heap and subsequent GET. -/
theorem C10_witness :
    demoBuilder.configRef < demoHeap.length
      ∧ ((RequestBuilderH.copy demoHeap demoBuilder).2 = demoBuilder
          ∧ heapGet (RequestBuilderH.copy demoHeap demoBuilder).1
                demoBuilder.configRef
              = heapGet demoHeap demoBuilder.configRef
          ∧ ∀ (transport : Transport) (m : Method) (endpoint : String)
              (kwargs : List (String × Val)),
              (RequestBuilderH.dispatchH transport m
                  (RequestBuilderH.copy demoHeap demoBuilder).1
                  demoBuilder endpoint kwargs).2
                = (RequestBuilderH.dispatchH transport m demoHeap demoBuilder
                    endpoint kwargs).2) :=
  ⟨by decide, C10_builder_copy_has_no_effect demoHeap demoBuilder (by decide)⟩
